import Mathlib

/-!
Shallow embedding of the instance lifecycle-orchestration core of ESLauncher2
(src/instance.rs and src/main.rs), together with theorems checking the
natural-language specification against it.

Modelling conventions:
* `PathBuf` (Rust `std::path::PathBuf`) is a list of path components.
* Bytes (`Vec<u8>` contents of process output and log files) are `List Nat`.
* The filesystem visible to `play`, `save_instances` and `load_instances`
  is passed explicitly; environmental outcomes of fallible I/O calls
  (`File::create`, `create_dir_all`, `Command::output`, ...) are supplied
  as explicit parameters, mirroring each `?` / `match` in the source.
* `iced::Command` is a bag of scheduled background tasks; each constructor of
  `ScheduledTask` records one `iced::Command::perform(future, mapper)` call
  site of src/instance.rs, i.e. the operation together with the closure that
  maps its completion value to a `Message`.
-/

/-- Path components standing for Rust `std::path::PathBuf`. -/
abbrev PathBuf := List String

/-- Raw bytes, as captured from process stdout/stderr. -/
abbrev Bytes := List Nat

/-- Stand-in for the external `iced::button::State` widget handle: it carries
no domain information, is `#[serde(skip)]`ped and reconstructed by
`Default::default()` on deserialization. -/
abbrev ButtonState := Unit

/-- The `InstanceType` from src/instance.rs: the platform descriptor enum. -/
inductive InstanceType where
  | MacOS
  | Windows
  | Linux
  | AppImage
  | Unknown
deriving DecidableEq

/-- The `InstanceType::archive` from src/instance.rs: the release-archive naming
convention for the platform. -/
def InstanceType.archive : InstanceType → Option String
  | InstanceType.MacOS => some "mac"
  | InstanceType.Windows => some "win64"
  | InstanceType.Linux => some ".tar.gz"
  | InstanceType.AppImage => some ".AppImage"
  | InstanceType.Unknown => none

/-- The `InstanceType::executable` from src/instance.rs: the relative path of the
launchable executable for the platform. -/
def InstanceType.executable : InstanceType → Option String
  | InstanceType.MacOS => some "Endless Sky.app/Contents/MacOS/Endless Sky"
  | InstanceType.Windows => some "EndlessSky.exe"
  | InstanceType.Linux => some "endless-sky"
  | InstanceType.AppImage => some "endless-sky.AppImage"
  | InstanceType.Unknown => none

/-- Modelled from the spec: `InstanceSource` lives in the `install_frame`
module, which is absent from src/; the spec describes it as a "provenance
descriptor (source kind + identifier it was installed/updated from)", and
src/instance.rs reads its `r#type` and `identifier` fields. -/
structure InstanceSource where
  «type» : String
  identifier : String
deriving DecidableEq

/-- The `InstanceState` from src/instance.rs. -/
inductive InstanceState where
  | Playing
  | Working (status : String)
  | Ready
deriving DecidableEq

/-- The `InstanceState::is_playing` from src/instance.rs. -/
def InstanceState.is_playing : InstanceState → Bool
  | InstanceState.Playing => true
  | _ => false

/-- The `InstanceState::is_working` from src/instance.rs. -/
def InstanceState.is_working : InstanceState → Bool
  | InstanceState.Working _ => true
  | _ => false

/-- The `InstanceState::is_ready` from src/instance.rs. -/
def InstanceState.is_ready : InstanceState → Bool
  | InstanceState.Ready => true
  | _ => false

/-- The `impl Default for InstanceState` from src/instance.rs. -/
def InstanceState.default : InstanceState := InstanceState.Ready

/-- The `Instance` from src/instance.rs. The five `button::State` fields and
`state` are `#[serde(skip)]`; the remaining six fields are serialized. -/
structure Instance where
  debug_button : ButtonState
  play_button : ButtonState
  update_button : ButtonState
  folder_button : ButtonState
  delete_button : ButtonState
  state : InstanceState
  path : PathBuf
  executable : PathBuf
  name : String
  version : String
  instance_type : InstanceType
  source : InstanceSource
deriving DecidableEq

/-- The `Instance::new` from src/instance.rs: always succeeds, buttons default,
initial state `InstanceState::default()` (= `Ready`). -/
def Instance.new (path executable : PathBuf) (name version : String)
    (instance_type : InstanceType) (source : InstanceSource) : Instance :=
  { debug_button := ()
    play_button := ()
    update_button := ()
    folder_button := ()
    delete_button := ()
    state := InstanceState.default
    path := path
    executable := executable
    name := name
    version := version
    instance_type := instance_type
    source := source }

/-- The `InstanceMessage` from src/instance.rs: the per-instance commands. -/
inductive InstanceMessage where
  | Play (do_debug : Bool)
  | Update
  | Folder
  | Delete
  | StateChanged (state : InstanceState)
deriving DecidableEq

/-- Modelled from the spec: the command type of the ambient-audio
collaborator from the missing `music` module; the spec says the core "only
needs to emit these two signals bracketing process execution"
(`Pause`/`Play`). -/
inductive MusicCommand where
  | Pause
  | Play
deriving DecidableEq

/-- The `Message` as referenced by src/instance.rs (`Message::InstanceMessage`
keyed by instance name, `Message::MusicMessage`, `Message::Updated`,
`Message::Deleted`, `Message::Dummy`). -/
inductive Message where
  | InstanceMessage (name : String) (msg : InstanceMessage)
  | MusicMessage (cmd : MusicCommand)
  | Updated (res : Option Instance)
  | Deleted (res : Option PathBuf)
  | Dummy (u : Unit)
deriving DecidableEq

/-- Helper for the filesystem model: drop every entry with the given path,
the effect of `File::create` on an existing file before re-adding it empty. -/
def removeFile : List (PathBuf × Bytes) → PathBuf → List (PathBuf × Bytes)
  | [], _ => []
  | e :: rest, p =>
    if e.1 = p then removeFile rest p else e :: removeFile rest p

/-- Helper for the filesystem model: append bytes to the file at the given
path, the effect of `Write::write_all` on an open handle. -/
def writeAllEntries : List (PathBuf × Bytes) → PathBuf → Bytes → List (PathBuf × Bytes)
  | [], _, _ => []
  | e :: rest, p, b =>
    if e.1 = p then (e.1, e.2 ++ b) :: writeAllEntries rest p b
    else e :: writeAllEntries rest p b

/-- Explicit filesystem state threaded through the I/O-performing functions:
the set of directories and the files with their byte contents. -/
structure FS where
  dirs : List PathBuf
  files : List (PathBuf × Bytes)
deriving DecidableEq

/-- The `fs::create_dir_all` on the success path: records the directory. -/
def FS.createDirAll (fs : FS) (p : PathBuf) : FS :=
  { fs with dirs := if p ∈ fs.dirs then fs.dirs else fs.dirs ++ [p] }

/-- The `File::create` on the success path: truncates any existing file at the
path and leaves an empty file there. -/
def FS.createFile (fs : FS) (p : PathBuf) : FS :=
  { fs with files := removeFile fs.files p ++ [(p, [])] }

/-- The `write_all` on the success path: appends bytes to the file at the path. -/
def FS.writeAll (fs : FS) (p : PathBuf) (b : Bytes) : FS :=
  { fs with files := writeAllEntries fs.files p b }

/-- A wall-clock instant at second granularity in the local timezone, the
information used by `DateTime::<Local>::from(SystemTime::now())` under the
`"%F %H-%M-%S"` format string. -/
structure LocalTime where
  year : Nat
  month : Nat
  day : Nat
  hour : Nat
  minute : Nat
  second : Nat
deriving DecidableEq

/-- Two-digit zero padding, as `%m`/`%d`/`%H`/`%M`/`%S` render. -/
def pad2 (n : Nat) : String :=
  if n < 10 then "0" ++ toString n else toString n

/-- Four-digit zero padding, as `%Y` (inside `%F`) renders. -/
def pad4 (n : Nat) : String :=
  if n < 10 then "000" ++ toString n
  else if n < 100 then "00" ++ toString n
  else if n < 1000 then "0" ++ toString n
  else toString n

/-- The chrono format string `"%F %H-%M-%S"` from src/instance.rs: `%F` is
`YYYY-MM-DD`, then a space, then `HH-MM-SS`. Second granularity: no
sub-second field exists. -/
def formatTimestamp (t : LocalTime) : String :=
  pad4 t.year ++ "-" ++ pad2 t.month ++ "-" ++ pad2 t.day ++ " " ++
    pad2 t.hour ++ "-" ++ pad2 t.minute ++ "-" ++ pad2 t.second

/-- The `std::process::Output` as used by src/instance.rs: exit-status success
flag and the captured stdout/stderr bytes. -/
structure ProcOutput where
  success : Bool
  stdout : Bytes
  stderr : Bytes
deriving DecidableEq

/-- Environmental outcomes of the fallible calls inside `play`: each `ok`
flag is the success of the corresponding `?`-propagated I/O call, and
`output` is the result of `Command::output()` (`none` means the process
failed to start). -/
structure PlayEnv where
  create_dir_ok : Bool
  create_out_ok : Bool
  create_err_ok : Bool
  write_out_ok : Bool
  write_err_ok : Bool
  output : Option ProcOutput
deriving DecidableEq

/-- The `play` from src/instance.rs: creates the `logs` directory, creates the
two timestamped log files, runs the executable, and writes the captured
stdout/stderr to them. A process-start failure (`Err(e)` from
`Command::output`) is only logged; the function still returns `Ok(())`.
The `do_debug` flag only selects the extra `-d` argument of the external
process invocation, which has no effect on the modelled filesystem. -/
def play (fs : FS) (path _executable : PathBuf) (_name : String)
    (_do_debug : Bool) (time : LocalTime) (env : PlayEnv) :
    Except String Unit × FS :=
  let log_path := path ++ ["logs"]
  if env.create_dir_ok = false then (Except.error "create_dir_all failed", fs)
  else
  let fs := fs.createDirAll log_path
  let timeStr := formatTimestamp time
  let out_path := log_path ++ [timeStr ++ ".out"]
  if env.create_out_ok = false then (Except.error "File::create failed", fs)
  else
  let fs := fs.createFile out_path
  let err_path := log_path ++ [timeStr ++ ".err"]
  if env.create_err_ok = false then (Except.error "File::create failed", fs)
  else
  let fs := fs.createFile err_path
  match env.output with
  | some output =>
    if env.write_out_ok = false then (Except.error "write_all failed", fs)
    else
    let fs := fs.writeAll out_path output.stdout
    if env.write_err_ok = false then (Except.error "write_all failed", fs)
    else
    let fs := fs.writeAll err_path output.stderr
    (Except.ok (), fs)
  | none => (Except.ok (), fs)

/-- The `perform_play` from src/instance.rs: sends `MusicCommand::Pause`, runs
`play` (logging, not propagating, its error), then sends
`MusicCommand::Play`. The first component is the chronological list of
messages sent via `send_message`. -/
def perform_play (fs : FS) (path executable : PathBuf) (name : String)
    (do_debug : Bool) (time : LocalTime) (env : PlayEnv) :
    List Message × FS :=
  let r := play fs path executable name do_debug time env
  ([Message.MusicMessage MusicCommand.Pause,
    Message.MusicMessage MusicCommand.Play], r.2)

/-- The `perform_update` from src/instance.rs, with the outcome of the external
collaborator `update::update_instance` passed in explicitly. Returns the
messages sent via `send_message` during execution and the `Option<Instance>`
return value (which the dispatcher wraps in `Message::Updated`). -/
def perform_update («instance» : Instance)
    (update_instance_result : Except String Instance) :
    List Message × Option Instance :=
  match update_instance_result with
  | Except.ok instance2 => ([], some instance2)
  | Except.error _e =>
    ([Message.InstanceMessage «instance».name
        (InstanceMessage.StateChanged InstanceState.Ready)], none)

/-- One `iced::Command::perform(future, mapper)` call site of
src/instance.rs: the scheduled background operation together with the data
captured by its completion-mapper closure. -/
inductive ScheduledTask where
  /-- Site `perform(dummy(), move |()| InstanceMessage(name, StateChanged(s)))`. -/
  | stateChange (name : String) (s : InstanceState)
  /-- Site `perform(perform_play(path, executable, name, do_debug), move |()|
  InstanceMessage(name2, StateChanged(Ready)))`. -/
  | playRun (path executable : PathBuf) (name : String) (do_debug : Bool)
      (name2 : String)
  /-- Site `perform(perform_update(self.clone()), Message::Updated)`. -/
  | updateRun (inst : Instance)
  /-- Site `perform(open_folder(self.path.clone()), Message::Dummy)`. -/
  | folderOpen (path : PathBuf)
  /-- Site `perform(delete(self.path.clone()), Message::Deleted)`. -/
  | deleteRun (path : PathBuf)
deriving DecidableEq

/-- The `iced::Command<Message>`, seen as the bag of background tasks it
schedules. -/
structure Command where
  tasks : List ScheduledTask
deriving DecidableEq

/-- The `iced::Command::none()`: schedules nothing. -/
def Command.none : Command := { tasks := [] }

/-- The `iced::Command::perform`: schedules one task. -/
def Command.perform (t : ScheduledTask) : Command := { tasks := [t] }

/-- The `iced::Command::batch`: schedules all tasks of all the given commands. -/
def Command.batch (cmds : List Command) : Command :=
  { tasks := (cmds.map Command.tasks).flatten }

/-- The `Instance::update` from src/instance.rs: the per-instance dispatch
logic. `&mut self` is modelled by returning the updated instance alongside
the returned `iced::Command`. -/
def Instance.update (self : Instance) (message : InstanceMessage) :
    Instance × Command :=
  match message with
  | InstanceMessage.Play do_debug =>
    let name1 := self.name
    let name2 := self.name
    (self, Command.batch
      [Command.perform (ScheduledTask.stateChange name1 InstanceState.Playing),
       Command.perform
         (ScheduledTask.playRun self.path self.executable self.name do_debug
           name2)])
  | InstanceMessage.Update =>
    let name := self.name
    (self, Command.batch
      [Command.perform
         (ScheduledTask.stateChange name (InstanceState.Working "Updating")),
       Command.perform (ScheduledTask.updateRun self)])
  | InstanceMessage.Folder =>
    (self, Command.perform (ScheduledTask.folderOpen self.path))
  | InstanceMessage.Delete =>
    (self, Command.perform (ScheduledTask.deleteRun self.path))
  | InstanceMessage.StateChanged state =>
    ({ self with state := state }, Command.none)

/-- The `Instance::view` from src/instance.rs, reduced to the information the
claims need: the list of `InstanceMessage`s the rendered widgets can emit.
`on_press` is attached to the debug/play/update/delete buttons only when
`self.state.is_ready()`; the folder button always has `on_press`; and when
the state is `Working` the whole button row is replaced by the status text,
so nothing is pressable. -/
def view_pressable (self : Instance) : List InstanceMessage :=
  let ready := self.state.is_ready
  match self.state with
  | InstanceState.Working _ => []
  | _ =>
    (if ready then
       [InstanceMessage.Play true, InstanceMessage.Play false,
        InstanceMessage.Update]
     else []) ++
    [InstanceMessage.Folder] ++
    (if ready then [InstanceMessage.Delete] else [])

/-- Environmental outcomes of the asynchronous world a scheduled task runs
in: the filesystem, the wall clock, the `play` I/O outcomes, the external
`update::update_instance` result and the `remove_dir_all` result. -/
structure AsyncEnv where
  fs : FS
  time : LocalTime
  play_env : PlayEnv
  update_instance_result : Except String Instance
  delete_ok : Bool

/-- Completion semantics of a scheduled task: the chronological list of
messages its execution sends plus the message its completion-mapper closure
delivers, as wired in src/instance.rs. -/
def ScheduledTask.completionMessages (t : ScheduledTask) (env : AsyncEnv) :
    List Message :=
  match t with
  | ScheduledTask.stateChange name s =>
    [Message.InstanceMessage name (InstanceMessage.StateChanged s)]
  | ScheduledTask.playRun path executable name do_debug name2 =>
    (perform_play env.fs path executable name do_debug env.time
        env.play_env).1 ++
      [Message.InstanceMessage name2
        (InstanceMessage.StateChanged InstanceState.Ready)]
  | ScheduledTask.updateRun inst =>
    let r := perform_update inst env.update_instance_result
    r.1 ++ [Message.Updated r.2]
  | ScheduledTask.folderOpen _path => [Message.Dummy ()]
  | ScheduledTask.deleteRun path =>
    [Message.Deleted (if env.delete_ok then some path else none)]

/-- Modelled from the spec: the top-level handler of the `Message::Updated`
completion message is absent from src/ (the `Message` enum in src/main.rs
predates it); the spec states "completion (success or failure) always yields
`StateChanged(Ready)`", so a successful update result yields a
`StateChanged(Ready)` for the updated instance (the failure path already
sent one from inside `perform_update`). -/
def handle_updated (res : Option Instance) : List Message :=
  match res with
  | some i =>
    [Message.InstanceMessage i.name
      (InstanceMessage.StateChanged InstanceState.Ready)]
  | none => []

/-- The full chronological stream of messages the completion of one update
operation delivers for state reconciliation: those sent by `perform_update`
itself, then those the `Updated` handler emits for its return value. -/
def updateCompletionEffects (inst : Instance)
    (res : Except String Instance) : List Message :=
  let r := perform_update inst res
  r.1 ++ handle_updated r.2

/-- The `get_instances_dir` from src/instance.rs: appends `"instances"` to the
application data directory. `get_data_dir` lives in the full `main.rs` (its
result depends on the host), so its result is passed in explicitly. -/
def get_instances_dir (data_dir : Option PathBuf) : Option PathBuf :=
  match data_dir with
  | none => none
  | some dir => some (dir ++ ["instances"])

/-- The serialized form of one `Instance`: exactly the non-`#[serde(skip)]`
fields of the `Instance` struct, in declaration order. -/
structure PersistedInstance where
  path : PathBuf
  executable : PathBuf
  name : String
  version : String
  instance_type : InstanceType
  source : InstanceSource
deriving DecidableEq

/-- Serde serialization of one `Instance`: the skipped fields (the five
button handles and `state`) are not written. -/
def serializeInstance (i : Instance) : PersistedInstance :=
  { path := i.path
    executable := i.executable
    name := i.name
    version := i.version
    instance_type := i.instance_type
    source := i.source }

/-- Serde deserialization of one `Instance`: skipped fields are rebuilt with
`Default::default()`, so `state` is `InstanceState::default()` = `Ready`. -/
def deserializeInstance (p : PersistedInstance) : Instance :=
  { debug_button := ()
    play_button := ()
    update_button := ()
    folder_button := ()
    delete_button := ()
    state := InstanceState.default
    path := p.path
    executable := p.executable
    name := p.name
    version := p.version
    instance_type := p.instance_type
    source := p.source }

/-- Content of the on-disk `instances.json`: either a well-formed document
holding an `InstancesContainer` of serialized records, or malformed content
on which `serde_json::from_reader` fails. -/
inductive RegistryFile where
  | wellFormed (records : List PersistedInstance)
  | malformed
deriving DecidableEq

/-- The `save_instances` from src/instance.rs: resolves the registry path,
creates the file and writes the serialized `InstancesContainer`, with the
environmental success of `File::create` and `serde_json::to_writer_pretty`
passed in. On success, returns the path written and the document content. -/
def save_instances (data_dir : Option PathBuf) (create_ok encode_ok : Bool)
    (instances : List Instance) : Except String (PathBuf × RegistryFile) :=
  match get_instances_dir data_dir with
  | none => Except.error "Failed to get Instances dir"
  | some dir =>
    let instances_file := dir ++ ["instances.json"]
    if create_ok = false then Except.error "File::create failed"
    else if encode_ok = false then
      Except.error "serde_json::to_writer_pretty failed"
    else Except.ok (instances_file,
      RegistryFile.wellFormed (instances.map serializeInstance))

/-- The `perform_save_instances` from src/instance.rs: calls `save_instances`
and, on failure, only logs. The result is the list of error-log lines and
the document written (`none` when the save failed); no error escapes. -/
def perform_save_instances (data_dir : Option PathBuf)
    (create_ok encode_ok : Bool) (instances : List Instance) :
    List String × Option (PathBuf × RegistryFile) :=
  match save_instances data_dir create_ok encode_ok instances with
  | Except.error e => (["Failed to save instances: " ++ e], none)
  | Except.ok pf => ([], some pf)

/-- The `load_instances` from src/instance.rs: resolves the registry path; if
the file exists, opens and decodes it (propagating both failures); if it
does not exist, logs a warning and returns the empty list. The file system
state at the registry path and the success of `File::open` are passed in. -/
def load_instances (data_dir : Option PathBuf)
    (registry_file : Option RegistryFile) (open_ok : Bool) :
    Except String (List Instance) :=
  match get_instances_dir data_dir with
  | none => Except.error "Failed to get Instances dir"
  | some _dir =>
    match registry_file with
    | some f =>
      if open_ok = false then Except.error "File::open failed"
      else
        match f with
        | RegistryFile.wellFormed records =>
          Except.ok (records.map deserializeInstance)
        | RegistryFile.malformed =>
          Except.error "serde_json::from_reader failed"
    | none => Except.ok []

/-- The `Message` as declared in src/main.rs. It is an older revision than the
one src/instance.rs references: instance-addressed messages carry a `usize`
index into the instance list. -/
inductive MainMessage where
  | NameChanged (name : String)
  | StartInstallation
  | InstanceMessage (i : Nat) (msg : InstanceMessage)
deriving DecidableEq

/-- The `InstallFrameState` from the missing `install_frame` module, with the
field src/main.rs reads and writes (`self.installation_frame.name`). -/
structure InstallFrameState where
  name : String
deriving DecidableEq

/-- The `InstancesFrameState` from the missing `instances_frame` module, with
the field src/main.rs reads (`self.instances_frame.instances`): the ordered
instance registry, owned by the top-level controller. -/
structure InstancesFrameState where
  instances : List Instance
deriving DecidableEq

/-- The `Work::Install` from the missing `worker` module, with the fields
src/main.rs constructs it with. -/
structure Work where
  destination : PathBuf
  name : String
  appimage : Bool
deriving DecidableEq

/-- The `ESLauncher` from src/main.rs, restricted to the fields with domain
content (`log_scrollable` and `log_reader` are external widget/channel
handles; `log_buffer` is only touched by `view`). -/
structure ESLauncher where
  installation_frame : InstallFrameState
  instances_frame : InstancesFrameState
  worker : Option Work
deriving DecidableEq

/-- The `PathBuf::push` of one component: pushing the empty string leaves the
stem unchanged for the purposes of `file_name()`. -/
def PathBuf.push (p : PathBuf) (s : String) : PathBuf :=
  if s = "" then p else p ++ [s]

/-- The `ESLauncher::update` from src/main.rs. `&mut self` is modelled by
returning the updated state; the two `unwrap()`s on
`destination.file_name().to_str()` are modelled by an `Option` result where
`none` is a panic. `get_instances_dir` again takes the ambient data
directory explicitly. -/
def ESLauncher.update (self : ESLauncher) (data_dir : Option PathBuf)
    (message : MainMessage) : Option (ESLauncher × Command) :=
  match message with
  | MainMessage.NameChanged name =>
    some ({ self with
      installation_frame := { self.installation_frame with name := name } },
      Command.none)
  | MainMessage.StartInstallation =>
    match get_instances_dir data_dir with
    | some dir =>
      let destination := PathBuf.push dir self.installation_frame.name
      match destination.getLast? with
      | none => none
      | some name =>
        some ({ self with
          worker := some { destination := destination, name := name,
                           appimage := true } }, Command.none)
    | none => some (self, Command.none)
  | MainMessage.InstanceMessage i msg =>
    match self.instances_frame.instances.get? i with
    | some inst =>
      let r := inst.update msg
      some ({ self with
        instances_frame :=
          { instances := self.instances_frame.instances.set i r.1 } }, r.2)
    | none => some (self, Command.none)

/-- C8: `InstanceType::archive` and `InstanceType::executable` are pure total
functions of the platform enum value; both return `none` for `Unknown` and a
fixed defined value for each of the four known platforms. -/
theorem archive_executable_pure_total :
    InstanceType.archive InstanceType.Unknown = none ∧
    InstanceType.executable InstanceType.Unknown = none ∧
    InstanceType.archive InstanceType.MacOS = some "mac" ∧
    InstanceType.archive InstanceType.Windows = some "win64" ∧
    InstanceType.archive InstanceType.Linux = some ".tar.gz" ∧
    InstanceType.archive InstanceType.AppImage = some ".AppImage" ∧
    InstanceType.executable InstanceType.MacOS =
      some "Endless Sky.app/Contents/MacOS/Endless Sky" ∧
    InstanceType.executable InstanceType.Windows = some "EndlessSky.exe" ∧
    InstanceType.executable InstanceType.Linux = some "endless-sky" ∧
    InstanceType.executable InstanceType.AppImage = some "endless-sky.AppImage" :=
  ⟨rfl, rfl, rfl, rfl, rfl, rfl, rfl, rfl, rfl, rfl⟩

/-- Helper: mapping a constant function over a list yields a replicate of the
same length. -/
theorem list_map_fun_const {α β : Type} (l : List α) (c : β) :
    l.map (fun _ => c) = List.replicate l.length c := by
  induction l with
  | nil => rfl
  | cons a t ih => simp [ih, List.replicate]

/-- C10: for every state `s` and every instance, `StateChanged(s)` sets the
operational state to exactly `s`, leaves every other field (path, executable,
name, version, instance_type, source, and the five widget-handle fields)
unchanged, returns `Command::none()` (scheduling no background operation),
and never fails (the dispatch is a total function). -/
theorem state_changed_sets_state_and_frames (inst : Instance)
    (s : InstanceState) :
    (inst.update (InstanceMessage.StateChanged s)).1.state = s ∧
    (inst.update (InstanceMessage.StateChanged s)).1.path = inst.path ∧
    (inst.update (InstanceMessage.StateChanged s)).1.executable =
      inst.executable ∧
    (inst.update (InstanceMessage.StateChanged s)).1.name = inst.name ∧
    (inst.update (InstanceMessage.StateChanged s)).1.version = inst.version ∧
    (inst.update (InstanceMessage.StateChanged s)).1.instance_type =
      inst.instance_type ∧
    (inst.update (InstanceMessage.StateChanged s)).1.source = inst.source ∧
    (inst.update (InstanceMessage.StateChanged s)).1.debug_button =
      inst.debug_button ∧
    (inst.update (InstanceMessage.StateChanged s)).1.play_button =
      inst.play_button ∧
    (inst.update (InstanceMessage.StateChanged s)).1.update_button =
      inst.update_button ∧
    (inst.update (InstanceMessage.StateChanged s)).1.folder_button =
      inst.folder_button ∧
    (inst.update (InstanceMessage.StateChanged s)).1.delete_button =
      inst.delete_button ∧
    (inst.update (InstanceMessage.StateChanged s)).2 = Command.none ∧
    (inst.update (InstanceMessage.StateChanged s)).2.tasks = [] :=
  ⟨rfl, rfl, rfl, rfl, rfl, rfl, rfl, rfl, rfl, rfl, rfl, rfl, rfl, rfl⟩

/-- C4: loading with no registry file present yields the empty list and no
error; loading a present but malformed registry file propagates the decoding
error rather than returning an empty or partial list. -/
theorem load_absent_empty_malformed_error (data_dir : PathBuf)
    (open_ok : Bool) :
    load_instances (some data_dir) none open_ok = Except.ok [] ∧
    load_instances (some data_dir) (some RegistryFile.malformed) true =
      Except.error "serde_json::from_reader failed" :=
  ⟨rfl, rfl⟩

/-- C7: the save entry point never propagates an error: whenever
`save_instances` fails (missing data dir, `File::create` failure, or
encoding failure), `perform_save_instances` returns normally with the
failure recorded in its log lines; whenever it succeeds it returns normally
with no log lines. -/
theorem perform_save_swallows_errors (data_dir : Option PathBuf)
    (create_ok encode_ok : Bool) (instances : List Instance) :
    (∀ e, save_instances data_dir create_ok encode_ok instances =
        Except.error e →
      perform_save_instances data_dir create_ok encode_ok instances =
        (["Failed to save instances: " ++ e], none)) ∧
    (∀ pf, save_instances data_dir create_ok encode_ok instances =
        Except.ok pf →
      perform_save_instances data_dir create_ok encode_ok instances =
        ([], some pf)) := by
  constructor
  · intro e h
    simp [perform_save_instances, h]
  · intro pf h
    simp [perform_save_instances, h]

/-- Witness for C7 at a concrete failing input: with no data directory the
save fails, is logged, and the entry point returns normally. -/
theorem perform_save_swallows_errors_witness :
    perform_save_instances none true true [] =
      (["Failed to save instances: " ++ "Failed to get Instances dir"],
       none) :=
  (perform_save_swallows_errors none true true []).1
    "Failed to get Instances dir" rfl

/-- C9: an instance-addressed message whose index is out of range of the
instance list makes `ESLauncher::update` a total no-op: the checked
`get_mut` lookup returns `None` (no panic — the result is `some`), the
application state is unchanged, and the empty command is returned. -/
theorem instance_message_out_of_range_noop (self : ESLauncher)
    (data_dir : Option PathBuf) (i : Nat) (msg : InstanceMessage)
    (h : self.instances_frame.instances.length ≤ i) :
    ESLauncher.update self data_dir (MainMessage.InstanceMessage i msg) =
      some (self, Command.none) := by
  have hg : self.instances_frame.instances[i]? = none :=
    List.getElem?_eq_none h
  simp [ESLauncher.update, hg]

/-- A concrete application state with an empty instance registry. -/
def esl0 : ESLauncher :=
  { installation_frame := { name := "" }
    instances_frame := { instances := [] }
    worker := none }

/-- Witness for C9 at a concrete input: index 0 into an empty registry. -/
theorem instance_message_out_of_range_noop_witness :
    ESLauncher.update esl0 none
        (MainMessage.InstanceMessage 0 InstanceMessage.Update) =
      some (esl0, Command.none) :=
  instance_message_out_of_range_noop esl0 none 0 InstanceMessage.Update
    (by decide)

/-- C2: saving an instance list and loading it back yields a list of the
same length in the same order, agreeing with the saved list on every
identity/configuration field (path, executable, name, version,
instance_type, source), with every loaded instance in state `Ready`
regardless of its state before the save. -/
theorem save_load_roundtrip (data_dir : PathBuf)
    (instances : List Instance) :
    ∃ p f, save_instances (some data_dir) true true instances =
        Except.ok (p, f) ∧
    ∃ loaded, load_instances (some data_dir) (some f) true =
        Except.ok loaded ∧
      loaded.length = instances.length ∧
      loaded.map Instance.path = instances.map Instance.path ∧
      loaded.map Instance.executable = instances.map Instance.executable ∧
      loaded.map Instance.name = instances.map Instance.name ∧
      loaded.map Instance.version = instances.map Instance.version ∧
      loaded.map Instance.instance_type =
        instances.map Instance.instance_type ∧
      loaded.map Instance.source = instances.map Instance.source ∧
      loaded.map Instance.state =
        List.replicate instances.length InstanceState.Ready := by
  refine ⟨data_dir ++ ["instances"] ++ ["instances.json"],
    RegistryFile.wellFormed (instances.map serializeInstance), rfl,
    (instances.map serializeInstance).map deserializeInstance, rfl,
    ?_, ?_, ?_, ?_, ?_, ?_, ?_, ?_⟩
  · simp
  · simp only [List.map_map]
    rfl
  · simp only [List.map_map]
    rfl
  · simp only [List.map_map]
    rfl
  · simp only [List.map_map]
    rfl
  · simp only [List.map_map]
    rfl
  · simp only [List.map_map]
    rfl
  · simp only [List.map_map]
    exact list_map_fun_const instances InstanceState.Ready

/-- C3: dispatching `Update` schedules the immediate transition to
`Working{status:"Updating"}` as its first task (whose completion delivers
exactly that `StateChanged`), schedules the update operation as its second;
and completion of the update operation always delivers a
`StateChanged(Ready)` addressed to the instance, so it never remains in
`Working` after the operation completes: on failure the completion effects
are exactly a `StateChanged(Ready)` to `inst.name` (sent by
`perform_update` itself), and on success `ok i` they are exactly a
`StateChanged(Ready)` to the updated instance `i` that replaces it. -/
theorem update_schedules_working_then_ready (inst : Instance)
    (res : Except String Instance) (env : AsyncEnv) :
    (Instance.update inst InstanceMessage.Update).2.tasks =
      [ScheduledTask.stateChange inst.name (InstanceState.Working "Updating"),
       ScheduledTask.updateRun inst] ∧
    ScheduledTask.completionMessages
        (ScheduledTask.stateChange inst.name
          (InstanceState.Working "Updating")) env =
      [Message.InstanceMessage inst.name
        (InstanceMessage.StateChanged (InstanceState.Working "Updating"))] ∧
    (∀ e, res = Except.error e →
      updateCompletionEffects inst res =
        [Message.InstanceMessage inst.name
          (InstanceMessage.StateChanged InstanceState.Ready)]) ∧
    (∀ i, res = Except.ok i →
      updateCompletionEffects inst res =
        [Message.InstanceMessage i.name
          (InstanceMessage.StateChanged InstanceState.Ready)]) := by
  refine ⟨rfl, rfl, ?_, ?_⟩
  · intro e he
    subst he
    rfl
  · intro i hi
    subst hi
    rfl

/-- A concrete provenance descriptor. -/
def sourceDev : InstanceSource :=
  { «type» := "Continuous", identifier := "latest" }

/-- A concrete instance whose transient state is `Playing` (not `Ready`). -/
def instPlaying : Instance :=
  { debug_button := ()
    play_button := ()
    update_button := ()
    folder_button := ()
    delete_button := ()
    state := InstanceState.Playing
    path := ["games", "es-dev"]
    executable := ["games", "es-dev", "endless-sky"]
    name := "es-dev"
    version := "0.9.12"
    instance_type := InstanceType.Linux
    source := sourceDev }

/-- Counterexample to C1 as stated: at the concrete instance `instPlaying`,
whose state is not `Ready`, the dispatch logic `Instance::update` does not
reject `Update` as a no-op — it schedules the `Working` transition and the
update operation exactly as it would from `Ready`, and likewise schedules
work for `Play`. -/
theorem update_dispatch_not_gated :
    instPlaying.state.is_ready = false ∧
    (Instance.update instPlaying InstanceMessage.Update).2.tasks =
      [ScheduledTask.stateChange "es-dev" (InstanceState.Working "Updating"),
       ScheduledTask.updateRun instPlaying] ∧
    (Instance.update instPlaying (InstanceMessage.Play false)).2.tasks ≠
      [] := by
  refine ⟨rfl, rfl, ?_⟩
  intro hcontra
  simp [Instance.update, Command.batch, Command.perform] at hcontra

/-- C1 as amended: the `Ready`-gate on state-changing commands is enforced
at the presentation boundary, not inside the dispatch logic: while the
instance state is not `Ready`, the rendered view wires no press handler for
`Play` or `Update` (so the UI emits the second of two immediately
successive state-changing commands zero times), whereas the dispatch logic
itself schedules the operation for any `Update` message it does receive,
regardless of state. -/
theorem ready_gate_enforced_in_view (inst : Instance) (b : Bool)
    (h : inst.state.is_ready = false) :
    InstanceMessage.Play b ∉ view_pressable inst ∧
    InstanceMessage.Update ∉ view_pressable inst ∧
    (Instance.update inst InstanceMessage.Update).2.tasks =
      [ScheduledTask.stateChange inst.name (InstanceState.Working "Updating"),
       ScheduledTask.updateRun inst] := by
  refine ⟨?_, ?_, rfl⟩ <;>
    cases hs : inst.state with
    | Ready => rw [hs] at h; simp [InstanceState.is_ready] at h
    | Playing => simp [view_pressable, hs, InstanceState.is_ready]
    | Working status => simp [view_pressable, hs]

/-- Witness for the amended C1 at the concrete not-`Ready` instance. -/
theorem ready_gate_enforced_in_view_witness :
    InstanceMessage.Play true ∉ view_pressable instPlaying ∧
    InstanceMessage.Update ∉ view_pressable instPlaying ∧
    (Instance.update instPlaying InstanceMessage.Update).2.tasks =
      [ScheduledTask.stateChange instPlaying.name
        (InstanceState.Working "Updating"),
       ScheduledTask.updateRun instPlaying] :=
  ready_gate_enforced_in_view instPlaying true rfl

/-- C5: when the external process fails to start (`Command::output` returns
an error) but the log-file bookkeeping succeeds, `play` still returns
`Ok(())` (overall completion, not a fatal error), and the completion
semantics of the scheduled launch still deliver the ambient-audio pause,
then the resume, then the `StateChanged(Ready)` for the instance. -/
theorem launch_start_failure_still_ready_and_resumes (env : AsyncEnv)
    (path executable : PathBuf) (name : String) (do_debug : Bool)
    (name2 : String)
    (h_start : env.play_env.output = none)
    (h_dir : env.play_env.create_dir_ok = true)
    (h_out : env.play_env.create_out_ok = true)
    (h_err : env.play_env.create_err_ok = true) :
    (play env.fs path executable name do_debug env.time env.play_env).1 =
      Except.ok () ∧
    ScheduledTask.completionMessages
        (ScheduledTask.playRun path executable name do_debug name2) env =
      [Message.MusicMessage MusicCommand.Pause,
       Message.MusicMessage MusicCommand.Play,
       Message.InstanceMessage name2
         (InstanceMessage.StateChanged InstanceState.Ready)] := by
  constructor
  · simp [play, h_start, h_dir, h_out, h_err]
  · simp [ScheduledTask.completionMessages, perform_play]

/-- The empty filesystem. -/
def fs0 : FS := { dirs := [], files := [] }

/-- A concrete wall-clock instant. -/
def t0 : LocalTime :=
  { year := 2026, month := 10, day := 12, hour := 1, minute := 2,
    second := 3 }

/-- A concrete asynchronous environment in which the process fails to start
but every filesystem call succeeds. -/
def envStartFail : AsyncEnv :=
  { fs := fs0
    time := t0
    play_env := { create_dir_ok := true, create_out_ok := true,
                  create_err_ok := true, write_out_ok := true,
                  write_err_ok := true, output := none }
    update_instance_result := Except.error "no release found"
    delete_ok := false }

/-- Witness for C5 at the concrete environment `envStartFail`. -/
theorem launch_start_failure_witness :
    (play envStartFail.fs ["games", "es-dev"]
        ["games", "es-dev", "endless-sky"] "es-dev" false envStartFail.time
        envStartFail.play_env).1 = Except.ok () ∧
    ScheduledTask.completionMessages
        (ScheduledTask.playRun ["games", "es-dev"]
          ["games", "es-dev", "endless-sky"] "es-dev" false "es-dev")
        envStartFail =
      [Message.MusicMessage MusicCommand.Pause,
       Message.MusicMessage MusicCommand.Play,
       Message.InstanceMessage "es-dev"
         (InstanceMessage.StateChanged InstanceState.Ready)] :=
  launch_start_failure_still_ready_and_resumes envStartFail
    ["games", "es-dev"] ["games", "es-dev", "endless-sky"] "es-dev" false
    "es-dev" rfl rfl rfl rfl

/-- Helper: removing a path that no entry carries leaves the list intact. -/
theorem removeFile_of_forall_ne (l : List (PathBuf × Bytes)) (p : PathBuf)
    (h : ∀ e ∈ l, e.1 ≠ p) : removeFile l p = l := by
  induction l with
  | nil => rfl
  | cons a t ih =>
    have ha : a.1 ≠ p := h a (by simp)
    simp [removeFile, ha, ih (fun e he => h e (by simp [he]))]

/-- Helper: `removeFile` distributes over list append. -/
theorem removeFile_append (l1 l2 : List (PathBuf × Bytes)) (p : PathBuf) :
    removeFile (l1 ++ l2) p = removeFile l1 p ++ removeFile l2 p := by
  induction l1 with
  | nil => rfl
  | cons a t ih =>
    by_cases ha : a.1 = p <;> simp [removeFile, ha, ih]

/-- Helper: writing to a path that no entry carries leaves the list intact. -/
theorem writeAllEntries_of_forall_ne (l : List (PathBuf × Bytes))
    (p : PathBuf) (b : Bytes) (h : ∀ e ∈ l, e.1 ≠ p) :
    writeAllEntries l p b = l := by
  induction l with
  | nil => rfl
  | cons a t ih =>
    have ha : a.1 ≠ p := h a (by simp)
    simp [writeAllEntries, ha, ih (fun e he => h e (by simp [he]))]

/-- Helper: `writeAllEntries` distributes over list append. -/
theorem writeAllEntries_append (l1 l2 : List (PathBuf × Bytes))
    (p : PathBuf) (b : Bytes) :
    writeAllEntries (l1 ++ l2) p b =
      writeAllEntries l1 p b ++ writeAllEntries l2 p b := by
  induction l1 with
  | nil => rfl
  | cons a t ih =>
    by_cases ha : a.1 = p <;> simp [writeAllEntries, ha, ih]

/-- Helper: the `.out` and `.err` names derived from one timestamp differ. -/
theorem append_out_ne_append_err (s : String) : s ++ ".out" ≠ s ++ ".err" := by
  intro h
  have hd : (s ++ ".out").data = (s ++ ".err").data := congrArg String.data h
  rw [String.data_append, String.data_append] at hd
  have := List.append_cancel_left hd
  simp at this

/-- Helper: the two log paths derived from one timestamp differ. -/
theorem out_path_ne_err_path (lp : PathBuf) (s : String) :
    lp ++ [s ++ ".out"] ≠ lp ++ [s ++ ".err"] := by
  intro h
  have h2 := List.append_cancel_left h
  have h3 : s ++ ".out" = s ++ ".err" := by
    injection h2
  exact append_out_ne_append_err s h3

/-- Helper: removing a different path leaves a singleton intact. -/
theorem removeFile_singleton_ne {p q : PathBuf} (h : p ≠ q) (b : Bytes) :
    removeFile [(p, b)] q = [(p, b)] := by
  simp [removeFile, h]

/-- Helper: writing to a singleton at its own path appends the bytes. -/
theorem writeAllEntries_singleton_eq (p : PathBuf) (b c : Bytes) :
    writeAllEntries [(p, b)] p c = [(p, b ++ c)] := by
  simp [writeAllEntries]

/-- Helper: writing to a different path leaves a singleton intact. -/
theorem writeAllEntries_singleton_ne {p q : PathBuf} (h : p ≠ q)
    (b c : Bytes) : writeAllEntries [(p, b)] q c = [(p, b)] := by
  simp [writeAllEntries, h]

/-- C6: with every filesystem call succeeding, a launch whose process runs
to completion returns `Ok(())` and adds exactly two new files, both under
`<install_path>/logs` and both named from the single timestamp taken at
invocation time (`<timestamp>.out` / `<timestamp>.err`), whose contents are
exactly the captured stdout bytes and exactly the captured stderr bytes. -/
theorem play_writes_exactly_two_logs (fs : FS) (path executable : PathBuf)
    (name : String) (do_debug : Bool) (t : LocalTime) (out : ProcOutput)
    (h1 : ∀ e ∈ fs.files, e.1 ≠ path ++ ["logs"] ++
      [formatTimestamp t ++ ".out"])
    (h2 : ∀ e ∈ fs.files, e.1 ≠ path ++ ["logs"] ++
      [formatTimestamp t ++ ".err"]) :
    (play fs path executable name do_debug t
        { create_dir_ok := true, create_out_ok := true,
          create_err_ok := true, write_out_ok := true,
          write_err_ok := true, output := some out }).1 = Except.ok () ∧
    (play fs path executable name do_debug t
        { create_dir_ok := true, create_out_ok := true,
          create_err_ok := true, write_out_ok := true,
          write_err_ok := true, output := some out }).2.files =
      fs.files ++
        [(path ++ ["logs"] ++ [formatTimestamp t ++ ".out"], out.stdout),
         (path ++ ["logs"] ++ [formatTimestamp t ++ ".err"], out.stderr)] := by
  have hne : path ++ ["logs"] ++ [formatTimestamp t ++ ".out"] ≠
      path ++ ["logs"] ++ [formatTimestamp t ++ ".err"] :=
    out_path_ne_err_path (path ++ ["logs"]) (formatTimestamp t)
  constructor
  · rfl
  · show (((((fs.createDirAll (path ++ ["logs"])).createFile
        (path ++ ["logs"] ++ [formatTimestamp t ++ ".out"])).createFile
        (path ++ ["logs"] ++ [formatTimestamp t ++ ".err"])).writeAll
        (path ++ ["logs"] ++ [formatTimestamp t ++ ".out"])
        out.stdout).writeAll
        (path ++ ["logs"] ++ [formatTimestamp t ++ ".err"])
        out.stderr).files = _
    have hne2 : path ++ ["logs"] ++ [formatTimestamp t ++ ".err"] ≠
        path ++ ["logs"] ++ [formatTimestamp t ++ ".out"] := Ne.symm hne
    have r1 := removeFile_of_forall_ne _ _ h1
    have r2 := removeFile_of_forall_ne _ _ h2
    have w1 := writeAllEntries_of_forall_ne _ _ out.stdout h1
    have w2 := writeAllEntries_of_forall_ne _ _ out.stderr h2
    simp only [FS.createDirAll, FS.createFile, FS.writeAll,
      removeFile_append, writeAllEntries_append, r1, r2, w1, w2,
      removeFile_singleton_ne hne, writeAllEntries_singleton_eq,
      writeAllEntries_singleton_ne hne, writeAllEntries_singleton_ne hne2]
    simp

/-- A concrete process output. -/
def out0 : ProcOutput := { success := true, stdout := [104, 105], stderr := [98, 121, 101] }

/-- Witness for C6 at a concrete input: launching from the empty filesystem
adds exactly the two timestamped log files with the captured bytes. -/
theorem play_writes_exactly_two_logs_witness :
    (play fs0 ["games", "es-dev"] ["games", "es-dev", "endless-sky"]
        "es-dev" false t0
        { create_dir_ok := true, create_out_ok := true,
          create_err_ok := true, write_out_ok := true,
          write_err_ok := true, output := some out0 }).1 = Except.ok () ∧
    (play fs0 ["games", "es-dev"] ["games", "es-dev", "endless-sky"]
        "es-dev" false t0
        { create_dir_ok := true, create_out_ok := true,
          create_err_ok := true, write_out_ok := true,
          write_err_ok := true, output := some out0 }).2.files =
      fs0.files ++
        [(["games", "es-dev"] ++ ["logs"] ++ [formatTimestamp t0 ++ ".out"],
          out0.stdout),
         (["games", "es-dev"] ++ ["logs"] ++ [formatTimestamp t0 ++ ".err"],
          out0.stderr)] :=
  play_writes_exactly_two_logs fs0 ["games", "es-dev"]
    ["games", "es-dev", "endless-sky"] "es-dev" false t0 out0
    (by simp [fs0]) (by simp [fs0])

/-- Witness for C3 at concrete inputs: the completion effects of a failed
update and of a successful update are each exactly one
`StateChanged(Ready)` addressed by name. -/
theorem update_schedules_working_then_ready_witness :
    updateCompletionEffects instPlaying (Except.error "no release found") =
      [Message.InstanceMessage instPlaying.name
        (InstanceMessage.StateChanged InstanceState.Ready)] ∧
    updateCompletionEffects instPlaying (Except.ok instPlaying) =
      [Message.InstanceMessage instPlaying.name
        (InstanceMessage.StateChanged InstanceState.Ready)] :=
  ⟨(update_schedules_working_then_ready instPlaying
      (Except.error "no release found") envStartFail).2.2.1
      "no release found" rfl,
   (update_schedules_working_then_ready instPlaying
      (Except.ok instPlaying) envStartFail).2.2.2 instPlaying rfl⟩
